import Mathlib

/-!
# Verification of `main/boards/bread-compact-ml307/compact_ml307_board.cc`

Shallow embedding of the `CompactMl307Board` class: the bring-up sequence run
by its constructor (`InitializeDisplayI2c`, `InitializeSsd1306Display`,
`InitializeButtons`, `InitializeIot`), the volume button handlers, the
capability accessors (`GetLed`, `GetAudioCodec`, `GetDisplay`), and a model of
the button state machine (debounce / click / long-press), which lives in
`button.h`/`button.cc` outside this file and is therefore modelled from the
spec.

Fallible ESP-IDF calls are modelled by a `HwEnv` record of outcomes, one
`Bool` per call site; `ESP_ERROR_CHECK` on a failing call aborts the process,
modelled as the `aborted` result carrying the diagnostic (the name of the
failing call).
-/

set_option autoImplicit false

namespace CompactMl307

/-- The two display objects the board can install in `display_`:
`new NoDisplay()` (line 109) on the panel-init failure path, or
`new OledDisplay(...)` (line 118) on the success path.  The `OledDisplay`
constructor arguments (panel handles, `DISPLAY_WIDTH`, fonts, ...) are
configuration constants irrelevant to the claims and are not carried here. -/
inductive DisplayObj
  | noDisplay
  | oledDisplay
deriving DecidableEq

/-- Modelled from the spec: `Display::ShowNotification` (the `Display` class
hierarchy is not under `src/`).  Per spec section 4.2, `ShowNotification(text)`
is not allowed to fail visibly to callers, and on a `NullDisplay` it is a
no-op that always succeeds.  We model the result as `Except String Unit`;
it is always `Except.ok ()`. -/
def showNotify (_d : DisplayObj) (_text : String) : Except String Unit :=
  Except.ok ()

/-- Outcomes of the six fallible ESP-IDF calls made during bring-up, in
source order.  `true` means the call returns `ESP_OK`. -/
structure HwEnv where
  /-- `i2c_new_master_bus` (line 60) -/
  newMasterBus : Bool
  /-- `esp_lcd_new_panel_io_i2c_v2` (line 86) -/
  newPanelIoI2c : Bool
  /-- `esp_lcd_new_panel_ssd1306` (line 101) -/
  newPanelSsd1306 : Bool
  /-- `esp_lcd_panel_reset` (line 105) -/
  panelReset : Bool
  /-- `esp_lcd_panel_init` (line 107), the one degrading step -/
  panelInit : Bool
  /-- `esp_lcd_panel_disp_on_off` (line 115) -/
  dispOnOff : Bool
deriving DecidableEq, Fintype

/-- The seven button handlers registered by `InitializeButtons`
(lines 129-175), in registration order. -/
inductive HandlerKind
  | bootClick
  | touchPressDown
  | touchPressUp
  | volUpClick
  | volUpLongPress
  | volDownClick
  | volDownLongPress
deriving DecidableEq

/-- Observable bring-up actions, used to state ordering properties of the
constructor. -/
inductive Event
  | displaySet (d : DisplayObj)
  | handlerRegistered (h : HandlerKind)
  | thingAdded (name : String)
deriving DecidableEq

/-- `InitializeDisplayI2c` (lines 45-61): configures the bus and runs
`ESP_ERROR_CHECK(i2c_new_master_bus(...))`; a failure aborts the process. -/
def initDisplayI2c (env : HwEnv) : Except String Unit :=
  if env.newMasterBus then Except.ok () else Except.error "i2c_new_master_bus"

/-- `InitializeSsd1306Display` (lines 68-120): panel I/O creation, driver
creation and panel reset are wrapped in `ESP_ERROR_CHECK` (fatal); if
`esp_lcd_panel_init` fails the method installs `new NoDisplay()` and returns;
otherwise `ESP_ERROR_CHECK(esp_lcd_panel_disp_on_off(...))` and then
`new OledDisplay(...)`. -/
def initSsd1306Display (env : HwEnv) : Except String DisplayObj :=
  if ¬ env.newPanelIoI2c then Except.error "esp_lcd_new_panel_io_i2c_v2"
  else if ¬ env.newPanelSsd1306 then Except.error "esp_lcd_new_panel_ssd1306"
  else if ¬ env.panelReset then Except.error "esp_lcd_panel_reset"
  else if ¬ env.panelInit then Except.ok DisplayObj.noDisplay
  else if ¬ env.dispOnOff then Except.error "esp_lcd_panel_disp_on_off"
  else Except.ok DisplayObj.oledDisplay

/-- `InitializeButtons` (lines 127-176): the registration events, in source
order. -/
def buttonRegistrations : List Event :=
  [Event.handlerRegistered HandlerKind.bootClick,
   Event.handlerRegistered HandlerKind.touchPressDown,
   Event.handlerRegistered HandlerKind.touchPressUp,
   Event.handlerRegistered HandlerKind.volUpClick,
   Event.handlerRegistered HandlerKind.volUpLongPress,
   Event.handlerRegistered HandlerKind.volDownClick,
   Event.handlerRegistered HandlerKind.volDownLongPress]

/-- `InitializeIot` (lines 183-187): registers the two things. -/
def iotRegistrations : List Event :=
  [Event.thingAdded "Speaker", Event.thingAdded "Lamp"]

/-- The board state the claims inspect: the `display_` member (line 34),
`nullptr` (`none`) until one of the two `new` expressions assigns it. -/
structure BoardState where
  display : Option DisplayObj
deriving DecidableEq

/-- `GetDisplay` (lines 240-242): `return display_;`. -/
def BoardState.getDisplay (b : BoardState) : Option DisplayObj :=
  b.display

/-- Result of running the constructor: either the process aborted inside an
`ESP_ERROR_CHECK` (with the failing call as diagnostic, and the events that
happened before the abort), or the constructor completed. -/
inductive BringUpResult
  | aborted (diag : String) (events : List Event)
  | completed (board : BoardState) (events : List Event)
deriving DecidableEq

/-- The `CompactMl307Board` constructor body (lines 195-205):
`InitializeDisplayI2c(); InitializeSsd1306Display(); InitializeButtons();
InitializeIot();` in that order.  `display_` is assigned inside
`InitializeSsd1306Display` before the method returns, so on every abort path
no event has happened yet, and on completion the event trace is the display
assignment followed by the seven handler registrations followed by the two
thing registrations. -/
def constructorRun (env : HwEnv) : BringUpResult :=
  match initDisplayI2c env with
  | Except.error d => BringUpResult.aborted d []
  | Except.ok _ =>
    match initSsd1306Display env with
    | Except.error d => BringUpResult.aborted d []
    | Except.ok disp =>
      BringUpResult.completed ⟨some disp⟩
        (Event.displaySet disp :: (buttonRegistrations ++ iotRegistrations))

/-- The event trace of a bring-up result. -/
def eventsOf : BringUpResult → List Event
  | BringUpResult.aborted _ evs => evs
  | BringUpResult.completed _ evs => evs

/-- Whether the bring-up aborted. -/
def isAborted : BringUpResult → Bool
  | BringUpResult.aborted _ _ => true
  | BringUpResult.completed _ _ => false

/-- The diagnostic carried by an abort, if any. -/
def abortDiag : BringUpResult → Option String
  | BringUpResult.aborted d _ => some d
  | BringUpResult.completed _ _ => none

/-- The completed board, if the bring-up completed. -/
def completedBoard : BringUpResult → Option BoardState
  | BringUpResult.completed b _ => some b
  | BringUpResult.aborted _ _ => none

/-- Number of handler-registration events in a trace. -/
def handlerCount (evs : List Event) : Nat :=
  (evs.filter fun e =>
    match e with
    | Event.handlerRegistered _ => true
    | _ => false).length

/-- Scanner for the ordering invariant: `seen` records whether a
`displaySet` event has occurred; every `handlerRegistered` event must come
when `seen` is already `true`. -/
def handlersAfterDisplayFrom : Bool → List Event → Bool
  | _, [] => true
  | _, Event.displaySet _ :: rest => handlersAfterDisplayFrom true rest
  | seen, Event.handlerRegistered _ :: rest =>
      seen && handlersAfterDisplayFrom seen rest
  | seen, Event.thingAdded _ :: rest => handlersAfterDisplayFrom seen rest

/-- Every handler registration in the trace is preceded by a display
assignment. -/
def handlersAfterDisplay (evs : List Event) : Bool :=
  handlersAfterDisplayFrom false evs

/-- On completed runs, `display_` is non-null. -/
def displaySetIfCompleted : BringUpResult → Bool
  | BringUpResult.completed b _ => b.display.isSome
  | BringUpResult.aborted _ _ => true

/-! ## Volume button handlers

The four lambdas wired on the volume buttons in `InitializeButtons`.  Each is
a pure function of the codec's current output volume, returning the volume
written back by `SetOutputVolume` and the text passed to `ShowNotification`.
C++ `int` arithmetic on values in `[0, 110]` cannot overflow, so `Int` is a
faithful model. -/

/-- Modelled from the spec: the language string `Lang::Strings::VOLUME`
(`assets/lang_config.h` is not under `src/`); the spec scenario shows the
notification text `"Volume 100"`, so the prefix is `"Volume "`. -/
def VOLUME : String := "Volume "

/-- Modelled from the spec: the language string `Lang::Strings::MAX_VOLUME`
(`assets/lang_config.h` is not under `src/`); a fixed "max volume"
notification. -/
def MAX_VOLUME : String := "max volume"

/-- Modelled from the spec: the language string `Lang::Strings::MUTED`
(`assets/lang_config.h` is not under `src/`); a fixed "muted" notification. -/
def MUTED : String := "muted"

/-- `volume_up_button_.OnClick` lambda (lines 144-152): read the codec
volume, add 10, clamp above at 100, write it back, show
`VOLUME + to_string(volume)`. -/
def volUpOnClick (v : Int) : Int × String :=
  let volume : Int := v + 10
  let volume : Int := if volume > 100 then 100 else volume
  (volume, VOLUME ++ toString volume)

/-- `volume_up_button_.OnLongPress` lambda (lines 155-158): set volume 100,
show the fixed max-volume notification. -/
def volUpOnLongPress (_v : Int) : Int × String :=
  (100, MAX_VOLUME)

/-- `volume_down_button_.OnClick` lambda (lines 161-169): read the codec
volume, subtract 10, clamp below at 0, write it back, show
`VOLUME + to_string(volume)`. -/
def volDownOnClick (v : Int) : Int × String :=
  let volume : Int := v - 10
  let volume : Int := if volume < 0 then 0 else volume
  (volume, VOLUME ++ toString volume)

/-- `volume_down_button_.OnLongPress` lambda (lines 172-175): set volume 0,
show the fixed muted notification. -/
def volDownOnLongPress (_v : Int) : Int × String :=
  (0, MUTED)

/-! ## Capability accessors

`GetLed` (lines 212-215) and `GetAudioCodec` (lines 222-233) each return the
address of a C++ function-local `static`: the object is constructed the first
time the accessor runs and the same address is returned on every later call.
`GetDisplay` (lines 240-242) just returns the `display_` member, which was
assigned during the constructor.  We model led/codec instances as allocation
identifiers drawn from a counter. -/

/-- The accessor-visible state: the lazily constructed `static` led and codec
instances (allocation ids, `none` before first construction), the `display_`
member, and the allocation counter. -/
structure Registry where
  ledInst : Option Nat
  codecInst : Option Nat
  displayInst : Option DisplayObj
  nextId : Nat
deriving DecidableEq

/-- `GetLed` (lines 212-215): `static SingleLed led(...); return &led;` —
construct on first call, afterwards return the same instance. -/
def getLed (r : Registry) : Nat × Registry :=
  match r.ledInst with
  | some i => (i, r)
  | none => (r.nextId, { r with ledInst := some r.nextId, nextId := r.nextId + 1 })

/-- `GetAudioCodec` (lines 222-233): `static NoAudioCodec... audio_codec(...);
return &audio_codec;` — the simplex/duplex choice is a build-time `#ifdef`
selecting which object the static holds; either way, construct on first call
and return the same instance afterwards. -/
def getAudioCodec (r : Registry) : Nat × Registry :=
  match r.codecInst with
  | some i => (i, r)
  | none => (r.nextId, { r with codecInst := some r.nextId, nextId := r.nextId + 1 })

/-- `GetDisplay` (lines 240-242): `return display_;` — no construction
happens in the accessor; the state is untouched. -/
def getDisplayAcc (r : Registry) : Option DisplayObj × Registry :=
  (r.displayInst, r)

/-- The registry as it stands right after the constructor returns, before any
accessor has been called: the led and codec statics are not yet constructed,
while `display_` was already assigned during `InitializeSsd1306Display`. -/
def postConstructorRegistry (env : HwEnv) : Option Registry :=
  match constructorRun env with
  | BringUpResult.completed b _ => some ⟨none, none, b.display, 0⟩
  | BringUpResult.aborted _ _ => none

/-! ## Button state machine

Modelled from the spec: the `Button` class (`button.h`/`button.cc`) is not
under `src/`.  Spec sections 4.3 and 5 describe, per button, a sampled state
machine over `{Idle, Pressed, LongPressFired}` with a debounce window and a
long-press threshold, sampling the raw line at a fixed cadence.  We model
time as discrete sample ticks: the input is the list of raw line levels
(`true` = asserted/pressed), one per tick. -/

/-- Modelled from the spec: `ButtonState`, one of Idle, Pressed,
LongPressFired (spec section 3). -/
inductive BtnPhase
  | idle
  | pressed
  | longPressFired
deriving DecidableEq

/-- Modelled from the spec: the semantic events a button emits
(spec section 3, `HandlerSet`). -/
inductive BtnEvent
  | pressDown
  | pressUp
  | click
  | longPress
deriving DecidableEq

/-- Modelled from the spec: `ButtonConfig` — debounce window and long-press
threshold, in sample ticks (spec section 3). -/
structure BtnConfig where
  debounceTicks : Nat
  longPressTicks : Nat
deriving DecidableEq

/-- The sampling state: current debounced phase, the count of consecutive
raw samples that disagree with the debounced level, and the count of stable
asserted ticks since the debounced Pressed state was entered (the long-press
clock, which per spec starts at debounced press entry, not at the first raw
edge). -/
structure BtnState where
  phase : BtnPhase
  unstable : Nat
  held : Nat
deriving DecidableEq

/-- The debounced line level implied by the phase: asserted unless Idle. -/
def debouncedLevel : BtnPhase → Bool
  | BtnPhase.idle => false
  | BtnPhase.pressed => true
  | BtnPhase.longPressFired => true

/-- Modelled from the spec: one sample tick.  A raw sample agreeing with the
debounced level resets the instability count; while Pressed it advances the
long-press clock and fires `LongPress` exactly once when the threshold is
reached (spec 4.3, transition Pressed → LongPressFired).  A disagreeing
sample increments the instability count; the level change is accepted only
once the new level has been stable for the debounce window (spec 4.3
debouncing policy), firing `PressDown` on Idle → Pressed, `PressUp` then
`Click` on Pressed → Idle, and `PressUp` only on LongPressFired → Idle. -/
def btnStep (cfg : BtnConfig) (s : BtnState) (raw : Bool) :
    BtnState × List BtnEvent :=
  if raw = debouncedLevel s.phase then
    match s.phase with
    | BtnPhase.idle => (⟨BtnPhase.idle, 0, 0⟩, [])
    | BtnPhase.pressed =>
      if cfg.longPressTicks ≤ s.held + 1 then
        (⟨BtnPhase.longPressFired, 0, s.held + 1⟩, [BtnEvent.longPress])
      else
        (⟨BtnPhase.pressed, 0, s.held + 1⟩, [])
    | BtnPhase.longPressFired => (⟨BtnPhase.longPressFired, 0, s.held⟩, [])
  else
    if cfg.debounceTicks ≤ s.unstable + 1 then
      match s.phase with
      | BtnPhase.idle => (⟨BtnPhase.pressed, 0, 0⟩, [BtnEvent.pressDown])
      | BtnPhase.pressed =>
        (⟨BtnPhase.idle, 0, 0⟩, [BtnEvent.pressUp, BtnEvent.click])
      | BtnPhase.longPressFired =>
        (⟨BtnPhase.idle, 0, 0⟩, [BtnEvent.pressUp])
    else
      (⟨s.phase, s.unstable + 1, s.held⟩, [])

/-- Run the sampler over a raw trace, collecting emitted events in order. -/
def btnRun (cfg : BtnConfig) (s : BtnState) : List Bool → BtnState × List BtnEvent
  | [] => (s, [])
  | raw :: rest =>
    let p := btnStep cfg s raw
    let q := btnRun cfg p.1 rest
    (q.1, p.2 ++ q.2)

/-- The initial state: Idle, line released, counters clear. -/
def btnStart : BtnState := ⟨BtnPhase.idle, 0, 0⟩

/-- The event trace of one full press-release cycle: `a` released ticks, then
`p` asserted ticks, then `r` released ticks, from the initial state. -/
def cycleEvents (cfg : BtnConfig) (a p r : Nat) : List BtnEvent :=
  (btnRun cfg btnStart
    (List.replicate a false ++ List.replicate p true ++
     List.replicate r false)).2

/-- Number of occurrences of an event in a trace. -/
def countEv (e : BtnEvent) (evs : List BtnEvent) : Nat :=
  (evs.filter fun x => x = e).length

/-- One of the four fatal bring-up steps (bus creation, panel I/O creation,
panel driver creation, panel reset) failed. -/
def fatalStepFailed (env : HwEnv) : Bool :=
  !env.newMasterBus || !env.newPanelIoI2c || !env.newPanelSsd1306 ||
    !env.panelReset

/-- The post-constructor registry, when it exists, holds a non-null
`display_`. -/
def postRegDisplaySome (env : HwEnv) : Bool :=
  match postConstructorRegistry env with
  | some r => r.displayInst.isSome
  | none => true

/-! ## Helper lemmas about the button state machine -/

theorem btnRun_append (cfg : BtnConfig) (s : BtnState) (xs ys : List Bool) :
    btnRun cfg s (xs ++ ys) =
      ((btnRun cfg (btnRun cfg s xs).1 ys).1,
       (btnRun cfg s xs).2 ++ (btnRun cfg (btnRun cfg s xs).1 ys).2) := by
  induction xs generalizing s with
  | nil => simp [btnRun]
  | cons x xs ih => simp [btnRun, ih, List.append_assoc]

theorem run_idle_false (cfg : BtnConfig) (n : Nat) :
    btnRun cfg ⟨BtnPhase.idle, 0, 0⟩ (List.replicate n false) =
      (⟨BtnPhase.idle, 0, 0⟩, []) := by
  induction n with
  | zero => simp [btnRun]
  | succ n ih => simp [List.replicate_succ, btnRun, btnStep, debouncedLevel, ih]

theorem run_idle_false_events (cfg : BtnConfig) (n u h : Nat) :
    (btnRun cfg ⟨BtnPhase.idle, u, h⟩ (List.replicate n false)).2 = [] := by
  cases n with
  | zero => simp [btnRun]
  | succ n =>
    simp [List.replicate_succ, btnRun, btnStep, debouncedLevel,
      run_idle_false]

theorem run_idle_true_short (cfg : BtnConfig) (n : Nat) :
    ∀ u h : Nat, u + n < cfg.debounceTicks →
      btnRun cfg ⟨BtnPhase.idle, u, h⟩ (List.replicate n true) =
        (⟨BtnPhase.idle, u + n, h⟩, []) := by
  induction n with
  | zero => intro u h _; simp [btnRun]
  | succ n ih =>
    intro u h hlt
    have hu : ¬ cfg.debounceTicks ≤ u + 1 := by omega
    have hrest := ih (u + 1) h (by omega)
    simp [List.replicate_succ, btnRun, btnStep, debouncedLevel, hu, hrest]
    omega

theorem run_idle_true_accept (cfg : BtnConfig) (hd : 0 < cfg.debounceTicks) :
    btnRun cfg ⟨BtnPhase.idle, 0, 0⟩ (List.replicate cfg.debounceTicks true) =
      (⟨BtnPhase.pressed, 0, 0⟩, [BtnEvent.pressDown]) := by
  have hsplit : List.replicate cfg.debounceTicks true =
      List.replicate (cfg.debounceTicks - 1) true ++ [true] := by
    rw [← List.replicate_succ']
    congr 1
    omega
  have hshort := run_idle_true_short cfg (cfg.debounceTicks - 1) 0 0 (by omega)
  have haccept : cfg.debounceTicks ≤ (cfg.debounceTicks - 1) + 1 := by omega
  rw [hsplit, btnRun_append, hshort]
  simp [btnRun, btnStep, debouncedLevel, haccept]

theorem run_pressed_true_short (cfg : BtnConfig) (n : Nat) :
    ∀ h : Nat, h + n < cfg.longPressTicks →
      btnRun cfg ⟨BtnPhase.pressed, 0, h⟩ (List.replicate n true) =
        (⟨BtnPhase.pressed, 0, h + n⟩, []) := by
  induction n with
  | zero => intro h _; simp [btnRun]
  | succ n ih =>
    intro h hlt
    have hfire : ¬ cfg.longPressTicks ≤ h + 1 := by omega
    have hrest := ih (h + 1) (by omega)
    simp [List.replicate_succ, btnRun, btnStep, debouncedLevel, hfire, hrest]
    omega

theorem run_lpf_true (cfg : BtnConfig) (n : Nat) (h : Nat) :
    btnRun cfg ⟨BtnPhase.longPressFired, 0, h⟩ (List.replicate n true) =
      (⟨BtnPhase.longPressFired, 0, h⟩, []) := by
  induction n with
  | zero => simp [btnRun]
  | succ n ih => simp [List.replicate_succ, btnRun, btnStep, debouncedLevel, ih]

theorem run_pressed_fire (cfg : BtnConfig) (n : Nat) (h : Nat)
    (hh : h < cfg.longPressTicks) (hn : cfg.longPressTicks ≤ h + n) :
    btnRun cfg ⟨BtnPhase.pressed, 0, h⟩ (List.replicate n true) =
      (⟨BtnPhase.longPressFired, 0, cfg.longPressTicks⟩, [BtnEvent.longPress]) := by
  have hsplit : List.replicate n true =
      List.replicate (cfg.longPressTicks - h - 1) true ++
        ([true] ++ List.replicate (n - (cfg.longPressTicks - h)) true) := by
    rw [List.singleton_append, ← List.replicate_succ, ← List.replicate_add]
    congr 1
    omega
  have hshort := run_pressed_true_short cfg (cfg.longPressTicks - h - 1) h (by omega)
  have hheld : h + (cfg.longPressTicks - h - 1) = cfg.longPressTicks - 1 := by omega
  have hfire : cfg.longPressTicks ≤ (cfg.longPressTicks - 1) + 1 := by omega
  have hL : cfg.longPressTicks - 1 + 1 = cfg.longPressTicks := by omega
  rw [hsplit, btnRun_append, hshort, hheld]
  have hone : btnRun cfg ⟨BtnPhase.pressed, 0, cfg.longPressTicks - 1⟩
      ([true] ++ List.replicate (n - (cfg.longPressTicks - h)) true) =
      (⟨BtnPhase.longPressFired, 0, cfg.longPressTicks⟩, [BtnEvent.longPress]) := by
    rw [btnRun_append]
    simp [btnRun, btnStep, debouncedLevel, hfire, hL, run_lpf_true]
  rw [hone]
  simp

theorem run_pressed_false_short (cfg : BtnConfig) (n : Nat) :
    ∀ u h : Nat, u + n < cfg.debounceTicks →
      btnRun cfg ⟨BtnPhase.pressed, u, h⟩ (List.replicate n false) =
        (⟨BtnPhase.pressed, u + n, h⟩, []) := by
  induction n with
  | zero => intro u h _; simp [btnRun]
  | succ n ih =>
    intro u h hlt
    have hu : ¬ cfg.debounceTicks ≤ u + 1 := by omega
    have hrest := ih (u + 1) h (by omega)
    simp [List.replicate_succ, btnRun, btnStep, debouncedLevel, hu, hrest]
    omega

theorem run_lpf_false_short (cfg : BtnConfig) (n : Nat) :
    ∀ u h : Nat, u + n < cfg.debounceTicks →
      btnRun cfg ⟨BtnPhase.longPressFired, u, h⟩ (List.replicate n false) =
        (⟨BtnPhase.longPressFired, u + n, h⟩, []) := by
  induction n with
  | zero => intro u h _; simp [btnRun]
  | succ n ih =>
    intro u h hlt
    have hu : ¬ cfg.debounceTicks ≤ u + 1 := by omega
    have hrest := ih (u + 1) h (by omega)
    simp [List.replicate_succ, btnRun, btnStep, debouncedLevel, hu, hrest]
    omega

theorem run_pressed_release (cfg : BtnConfig) (hd : 0 < cfg.debounceTicks)
    (r h : Nat) (hr : cfg.debounceTicks ≤ r) :
    btnRun cfg ⟨BtnPhase.pressed, 0, h⟩ (List.replicate r false) =
      (⟨BtnPhase.idle, 0, 0⟩, [BtnEvent.pressUp, BtnEvent.click]) := by
  have hsplit : List.replicate r false =
      List.replicate (cfg.debounceTicks - 1) false ++
        ([false] ++ List.replicate (r - cfg.debounceTicks) false) := by
    rw [List.singleton_append, ← List.replicate_succ, ← List.replicate_add]
    congr 1
    omega
  have hshort := run_pressed_false_short cfg (cfg.debounceTicks - 1) 0 h (by omega)
  have haccept : cfg.debounceTicks ≤ (cfg.debounceTicks - 1) + 1 := by omega
  rw [hsplit, btnRun_append, hshort]
  simp only [Nat.zero_add]
  have hone : btnRun cfg ⟨BtnPhase.pressed, cfg.debounceTicks - 1, h⟩
      ([false] ++ List.replicate (r - cfg.debounceTicks) false) =
      (⟨BtnPhase.idle, 0, 0⟩, [BtnEvent.pressUp, BtnEvent.click]) := by
    rw [btnRun_append]
    simp [btnRun, btnStep, debouncedLevel, haccept, run_idle_false]
  rw [hone]
  simp

theorem run_lpf_release (cfg : BtnConfig) (hd : 0 < cfg.debounceTicks)
    (r h : Nat) (hr : cfg.debounceTicks ≤ r) :
    btnRun cfg ⟨BtnPhase.longPressFired, 0, h⟩ (List.replicate r false) =
      (⟨BtnPhase.idle, 0, 0⟩, [BtnEvent.pressUp]) := by
  have hsplit : List.replicate r false =
      List.replicate (cfg.debounceTicks - 1) false ++
        ([false] ++ List.replicate (r - cfg.debounceTicks) false) := by
    rw [List.singleton_append, ← List.replicate_succ, ← List.replicate_add]
    congr 1
    omega
  have hshort := run_lpf_false_short cfg (cfg.debounceTicks - 1) 0 h (by omega)
  have haccept : cfg.debounceTicks ≤ (cfg.debounceTicks - 1) + 1 := by omega
  rw [hsplit, btnRun_append, hshort]
  simp only [Nat.zero_add]
  have hone : btnRun cfg ⟨BtnPhase.longPressFired, cfg.debounceTicks - 1, h⟩
      ([false] ++ List.replicate (r - cfg.debounceTicks) false) =
      (⟨BtnPhase.idle, 0, 0⟩, [BtnEvent.pressUp]) := by
    rw [btnRun_append]
    simp [btnRun, btnStep, debouncedLevel, haccept, run_idle_false]
  rw [hone]
  simp

/-- Full characterization of one debounced press-release cycle: a press held
for fewer than `longPressTicks` stable ticks after debounced entry yields
`PressDown, PressUp, Click`; a longer press yields
`PressDown, LongPress, PressUp`, however long the line stays asserted. -/
theorem cycle_characterization (cfg : BtnConfig)
    (hd : 0 < cfg.debounceTicks) (hl : 0 < cfg.longPressTicks)
    (a p r : Nat) (hp : cfg.debounceTicks ≤ p) (hr : cfg.debounceTicks ≤ r) :
    cycleEvents cfg a p r =
      if p - cfg.debounceTicks < cfg.longPressTicks
      then [BtnEvent.pressDown, BtnEvent.pressUp, BtnEvent.click]
      else [BtnEvent.pressDown, BtnEvent.longPress, BtnEvent.pressUp] := by
  have hsplit : List.replicate p true =
      List.replicate cfg.debounceTicks true ++
        List.replicate (p - cfg.debounceTicks) true := by
    rw [← List.replicate_add]
    congr 1
    omega
  have h0 := run_idle_false cfg a
  have h1 := run_idle_true_accept cfg hd
  simp only [cycleEvents, btnStart, hsplit, List.append_assoc, btnRun_append,
    h0, h1]
  by_cases hcase : p - cfg.debounceTicks < cfg.longPressTicks
  · have h2 := run_pressed_true_short cfg (p - cfg.debounceTicks) 0
      (by omega)
    have h3 := run_pressed_release cfg hd r (p - cfg.debounceTicks) hr
    simp only [Nat.zero_add] at h2
    rw [if_pos hcase]
    simp [h2, h3]
  · have h2 := run_pressed_fire cfg (p - cfg.debounceTicks) 0 hl (by omega)
    have h3 := run_lpf_release cfg hd r cfg.longPressTicks hr
    rw [if_neg hcase]
    simp [h2, h3]

theorem postRegDisplaySome_true (env : HwEnv) : postRegDisplaySome env = true := by
  revert env
  decide

/-! ## Claim theorems -/

/-- C1: For every press-release cycle of a Button State Machine, exactly one
of Click and LongPress fires, and PressDown/PressUp fire as a pair: a press
shorter than the long-press threshold yields exactly one Click and no
LongPress; a longer press yields exactly one LongPress and no Click, with no
repeat firing however long the line stays asserted. -/
theorem button_press_cycle_exclusive (cfg : BtnConfig)
    (hd : 0 < cfg.debounceTicks) (hl : 0 < cfg.longPressTicks)
    (a p r : Nat) (hp : cfg.debounceTicks ≤ p) (hr : cfg.debounceTicks ≤ r) :
    cycleEvents cfg a p r =
      (if p - cfg.debounceTicks < cfg.longPressTicks
       then [BtnEvent.pressDown, BtnEvent.pressUp, BtnEvent.click]
       else [BtnEvent.pressDown, BtnEvent.longPress, BtnEvent.pressUp]) ∧
    countEv BtnEvent.pressDown (cycleEvents cfg a p r) = 1 ∧
    countEv BtnEvent.pressUp (cycleEvents cfg a p r) = 1 ∧
    countEv BtnEvent.click (cycleEvents cfg a p r) +
      countEv BtnEvent.longPress (cycleEvents cfg a p r) = 1 ∧
    (p - cfg.debounceTicks < cfg.longPressTicks →
      countEv BtnEvent.click (cycleEvents cfg a p r) = 1 ∧
      countEv BtnEvent.longPress (cycleEvents cfg a p r) = 0) ∧
    (cfg.longPressTicks ≤ p - cfg.debounceTicks →
      countEv BtnEvent.longPress (cycleEvents cfg a p r) = 1 ∧
      countEv BtnEvent.click (cycleEvents cfg a p r) = 0) := by
  have hchar := cycle_characterization cfg hd hl a p r hp hr
  by_cases hcase : p - cfg.debounceTicks < cfg.longPressTicks
  · rw [if_pos hcase] at hchar
    rw [hchar, if_pos hcase]
    exact ⟨rfl, by decide, by decide, by decide,
      fun _ => ⟨by decide, by decide⟩, fun hge => absurd hcase (by omega)⟩
  · rw [if_neg hcase] at hchar
    rw [hchar, if_neg hcase]
    exact ⟨rfl, by decide, by decide, by decide,
      fun hlt => absurd hlt hcase, fun _ => ⟨by decide, by decide⟩⟩

/-- C1 witness: debounce 2 ticks, threshold 3 ticks, a 3-tick press (1 stable
pressed tick) is a click; evaluated concretely. -/
theorem button_press_cycle_exclusive_witness :
    cycleEvents ⟨2, 3⟩ 1 3 4 =
      [BtnEvent.pressDown, BtnEvent.pressUp, BtnEvent.click] ∧
    countEv BtnEvent.click (cycleEvents ⟨2, 3⟩ 1 3 4) = 1 ∧
    countEv BtnEvent.longPress (cycleEvents ⟨2, 3⟩ 1 3 4) = 0 := by
  have h := button_press_cycle_exclusive ⟨2, 3⟩ (by decide) (by decide)
    1 3 4 (by decide) (by decide)
  refine ⟨?_, (h.2.2.2.2.1 (by decide)).1, (h.2.2.2.2.1 (by decide)).2⟩
  rw [h.1]
  decide

/-- C2: for any volume in [0, 100], a volume-up click sets
`min(v + 10, 100)` and a volume-down click sets `max(v - 10, 0)`, each
showing a notification with the clamped value; at 95 a volume-up click shows
"Volume 100", not 105. -/
theorem volume_click_clamped (v : Int) (h0 : 0 ≤ v) (h1 : v ≤ 100) :
    (volUpOnClick v).1 = min (v + 10) 100 ∧
    (volUpOnClick v).2 = VOLUME ++ toString (min (v + 10) 100) ∧
    (volDownOnClick v).1 = max (v - 10) 0 ∧
    (volDownOnClick v).2 = VOLUME ++ toString (max (v - 10) 0) ∧
    (volUpOnClick 95).2 = "Volume 100" ∧
    (volDownOnClick 5).2 = "Volume 0" := by
  have hup : (if v + 10 > 100 then (100 : Int) else v + 10) =
      min (v + 10) 100 := by
    rw [min_def]
    split_ifs <;> omega
  have hdown : (if v - 10 < 0 then (0 : Int) else v - 10) =
      max (v - 10) 0 := by
    rw [max_def]
    split_ifs <;> omega
  refine ⟨?_, ?_, ?_, ?_, rfl, rfl⟩
  · show (if v + 10 > 100 then (100 : Int) else v + 10) = min (v + 10) 100
    exact hup
  · show VOLUME ++ toString (if v + 10 > 100 then (100 : Int) else v + 10) =
      VOLUME ++ toString (min (v + 10) 100)
    rw [hup]
  · show (if v - 10 < 0 then (0 : Int) else v - 10) = max (v - 10) 0
    exact hdown
  · show VOLUME ++ toString (if v - 10 < 0 then (0 : Int) else v - 10) =
      VOLUME ++ toString (max (v - 10) 0)
    rw [hdown]

/-- C2 witness: instantiated at volume 95. -/
theorem volume_click_clamped_witness :
    (0 : Int) ≤ 95 ∧ (95 : Int) ≤ 100 ∧
    ((volUpOnClick 95).1 = min (95 + 10) 100 ∧
     (volUpOnClick 95).2 = VOLUME ++ toString (min ((95 : Int) + 10) 100) ∧
     (volDownOnClick 95).1 = max (95 - 10) 0 ∧
     (volDownOnClick 95).2 = VOLUME ++ toString (max ((95 : Int) - 10) 0) ∧
     (volUpOnClick 95).2 = "Volume 100" ∧
     (volDownOnClick 5).2 = "Volume 0") :=
  ⟨by decide, by decide, volume_click_clamped 95 (by decide) (by decide)⟩

/-- C3: when panel content initialization fails (all earlier steps having
succeeded), the constructor installs `NoDisplay` and completes without
aborting, and `ShowNotification` on that display still returns successfully
as a no-op. -/
theorem panel_init_failure_degrades (env : HwEnv)
    (h1 : env.newMasterBus = true) (h2 : env.newPanelIoI2c = true)
    (h3 : env.newPanelSsd1306 = true) (h4 : env.panelReset = true)
    (h5 : env.panelInit = false) :
    isAborted (constructorRun env) = false ∧
    completedBoard (constructorRun env) = some ⟨some DisplayObj.noDisplay⟩ ∧
    (∀ b : BoardState, completedBoard (constructorRun env) = some b →
      b.getDisplay = some DisplayObj.noDisplay) ∧
    (∀ text : String, showNotify DisplayObj.noDisplay text = Except.ok ()) := by
  obtain ⟨b1, b2, b3, b4, b5, b6⟩ := env
  dsimp only at h1 h2 h3 h4 h5
  subst h1
  subst h2
  subst h3
  subst h4
  subst h5
  cases b6 <;>
    exact ⟨rfl, rfl, fun b hb => by injection hb with h6; rw [← h6]; rfl, fun _ => rfl⟩

/-- C3 witness: concrete environment in which only panel init fails. -/
theorem panel_init_failure_degrades_witness :
    (HwEnv.mk true true true true false true).newMasterBus = true ∧
    (HwEnv.mk true true true true false true).newPanelIoI2c = true ∧
    (HwEnv.mk true true true true false true).newPanelSsd1306 = true ∧
    (HwEnv.mk true true true true false true).panelReset = true ∧
    (HwEnv.mk true true true true false true).panelInit = false ∧
    (isAborted (constructorRun ⟨true, true, true, true, false, true⟩) = false ∧
     completedBoard (constructorRun ⟨true, true, true, true, false, true⟩) =
       some ⟨some DisplayObj.noDisplay⟩ ∧
     (∀ b : BoardState,
        completedBoard (constructorRun ⟨true, true, true, true, false, true⟩) =
          some b → b.getDisplay = some DisplayObj.noDisplay) ∧
     (∀ text : String,
        showNotify DisplayObj.noDisplay text = Except.ok ())) :=
  ⟨rfl, rfl, rfl, rfl, rfl,
   panel_init_failure_degrades ⟨true, true, true, true, false, true⟩
     rfl rfl rfl rfl rfl⟩

/-- C4: a failure in any of the first four bring-up steps (bus creation,
panel I/O creation, panel driver creation, panel reset) aborts the process
with a diagnostic, before any button handler is wired; in particular a bus
creation failure aborts with nothing done. -/
theorem fatal_step_aborts (env : HwEnv) (h : fatalStepFailed env = true) :
    isAborted (constructorRun env) = true ∧
    (abortDiag (constructorRun env)).isSome = true ∧
    handlerCount (eventsOf (constructorRun env)) = 0 ∧
    (env.newMasterBus = false →
      constructorRun env = BringUpResult.aborted "i2c_new_master_bus" []) := by
  revert h
  revert env
  decide

/-- C4 witness: bus creation fails. -/
theorem fatal_step_aborts_witness :
    fatalStepFailed ⟨false, true, true, true, true, true⟩ = true ∧
    (isAborted (constructorRun ⟨false, true, true, true, true, true⟩) = true ∧
     (abortDiag (constructorRun ⟨false, true, true, true, true, true⟩)).isSome =
       true ∧
     handlerCount
       (eventsOf (constructorRun ⟨false, true, true, true, true, true⟩)) = 0 ∧
     ((HwEnv.mk false true true true true true).newMasterBus = false →
       constructorRun ⟨false, true, true, true, true, true⟩ =
         BringUpResult.aborted "i2c_new_master_bus" [])) :=
  ⟨by decide,
   fatal_step_aborts ⟨false, true, true, true, true, true⟩ (by decide)⟩

/-- C5: in every execution of the constructor, the display is constructed
before any button handler is registered (and on completed runs all seven
handlers do get registered, after the display). -/
theorem buttons_wired_after_display (env : HwEnv) :
    handlersAfterDisplay (eventsOf (constructorRun env)) = true ∧
    (isAborted (constructorRun env) = false →
      handlerCount (eventsOf (constructorRun env)) = 7) := by
  revert env
  decide

/-- C5 witness: fully successful bring-up. -/
theorem buttons_wired_after_display_witness :
    handlersAfterDisplay
      (eventsOf (constructorRun ⟨true, true, true, true, true, true⟩)) = true ∧
    handlerCount
      (eventsOf (constructorRun ⟨true, true, true, true, true, true⟩)) = 7 :=
  ⟨(buttons_wired_after_display ⟨true, true, true, true, true, true⟩).1,
   (buttons_wired_after_display ⟨true, true, true, true, true, true⟩).2
     (by decide)⟩

/-- C6: a long press of volume-up sets the codec volume to exactly 100 with
the fixed max-volume notification; a long press of volume-down sets exactly 0
with the fixed muted notification, for every prior volume. -/
theorem longpress_sets_extremes (v : Int) :
    volUpOnLongPress v = (100, MAX_VOLUME) ∧
    volDownOnLongPress v = (0, MUTED) ∧
    MAX_VOLUME = "max volume" ∧ MUTED = "muted" :=
  ⟨rfl, rfl, rfl, rfl⟩

/-- C7 counterexample: after a fully successful constructor run and before
any accessor call, the display instance already exists (`display_` was
assigned eagerly during bring-up), and the first `GetDisplay` call constructs
nothing (the registry is unchanged), while the first `GetLed` call does
construct (the registry changes).  So construction of the display is not
"lazy on first call" as the claim states. -/
theorem getdisplay_eager_counterexample :
    postConstructorRegistry ⟨true, true, true, true, true, true⟩ =
      some ⟨none, none, some DisplayObj.oledDisplay, 0⟩ ∧
    (Registry.mk none none (some DisplayObj.oledDisplay) 0).displayInst.isSome
      = true ∧
    (getDisplayAcc ⟨none, none, some DisplayObj.oledDisplay, 0⟩).2 =
      ⟨none, none, some DisplayObj.oledDisplay, 0⟩ ∧
    (getLed ⟨none, none, some DisplayObj.oledDisplay, 0⟩).2 ≠
      ⟨none, none, some DisplayObj.oledDisplay, 0⟩ := by
  decide

/-- C7 amended: `GetLed` and `GetAudioCodec` are lazy-but-idempotent (the
first call constructs the instance, later calls return the identical
instance); `GetDisplay` also returns the identical instance across repeated
calls, but that instance is constructed eagerly during the board constructor,
not by the first call, which constructs nothing. -/
theorem accessors_identical_amended (r : Registry)
    (hl : r.ledInst = none) (hc : r.codecInst = none) :
    (getLed r).2.ledInst = some (getLed r).1 ∧
    (getLed (getLed r).2).1 = (getLed r).1 ∧
    (getLed (getLed r).2).2 = (getLed r).2 ∧
    (getAudioCodec r).2.codecInst = some (getAudioCodec r).1 ∧
    (getAudioCodec (getAudioCodec r).2).1 = (getAudioCodec r).1 ∧
    (getAudioCodec (getAudioCodec r).2).2 = (getAudioCodec r).2 ∧
    (getDisplayAcc r).1 = r.displayInst ∧
    (getDisplayAcc r).2 = r ∧
    (getDisplayAcc (getDisplayAcc r).2).1 = (getDisplayAcc r).1 ∧
    (∀ env : HwEnv, postRegDisplaySome env = true) := by
  obtain ⟨l, c, d, n⟩ := r
  dsimp only at hl hc
  subst hl
  subst hc
  exact ⟨rfl, rfl, rfl, rfl, rfl, rfl, rfl, rfl, rfl, postRegDisplaySome_true⟩

/-- C7 witness: the post-constructor registry of a successful run. -/
theorem accessors_identical_amended_witness :
    (Registry.mk none none (some DisplayObj.oledDisplay) 0).ledInst = none ∧
    (Registry.mk none none (some DisplayObj.oledDisplay) 0).codecInst = none ∧
    ((getLed ⟨none, none, some DisplayObj.oledDisplay, 0⟩).2.ledInst =
       some (getLed ⟨none, none, some DisplayObj.oledDisplay, 0⟩).1 ∧
     (getLed (getLed ⟨none, none, some DisplayObj.oledDisplay, 0⟩).2).1 =
       (getLed ⟨none, none, some DisplayObj.oledDisplay, 0⟩).1 ∧
     (getLed (getLed ⟨none, none, some DisplayObj.oledDisplay, 0⟩).2).2 =
       (getLed ⟨none, none, some DisplayObj.oledDisplay, 0⟩).2 ∧
     (getAudioCodec ⟨none, none, some DisplayObj.oledDisplay, 0⟩).2.codecInst =
       some (getAudioCodec ⟨none, none, some DisplayObj.oledDisplay, 0⟩).1 ∧
     (getAudioCodec
        (getAudioCodec ⟨none, none, some DisplayObj.oledDisplay, 0⟩).2).1 =
       (getAudioCodec ⟨none, none, some DisplayObj.oledDisplay, 0⟩).1 ∧
     (getAudioCodec
        (getAudioCodec ⟨none, none, some DisplayObj.oledDisplay, 0⟩).2).2 =
       (getAudioCodec ⟨none, none, some DisplayObj.oledDisplay, 0⟩).2 ∧
     (getDisplayAcc ⟨none, none, some DisplayObj.oledDisplay, 0⟩).1 =
       (Registry.mk none none (some DisplayObj.oledDisplay) 0).displayInst ∧
     (getDisplayAcc ⟨none, none, some DisplayObj.oledDisplay, 0⟩).2 =
       ⟨none, none, some DisplayObj.oledDisplay, 0⟩ ∧
     (getDisplayAcc
        (getDisplayAcc ⟨none, none, some DisplayObj.oledDisplay, 0⟩).2).1 =
       (getDisplayAcc ⟨none, none, some DisplayObj.oledDisplay, 0⟩).1 ∧
     (∀ env : HwEnv, postRegDisplaySome env = true)) :=
  ⟨rfl, rfl,
   accessors_identical_amended ⟨none, none, some DisplayObj.oledDisplay, 0⟩
     rfl rfl⟩

/-- C8: raw signal transitions shorter than the debounce window produce zero
events from any stable state and leave the phase unchanged (a level change is
accepted only after the new level has been stable for the window); and the
long-press threshold is measured from entry into the debounced Pressed state:
on a pure press trace, LongPress fires exactly when the press lasts at least
debounce-window plus threshold ticks. -/
theorem debounce_zero_events (cfg : BtnConfig)
    (hd : 0 < cfg.debounceTicks) (hl : 0 < cfg.longPressTicks) :
    (∀ (s : BtnState) (g : Nat), s.unstable = 0 → g < cfg.debounceTicks →
      (btnRun cfg s (List.replicate g (!debouncedLevel s.phase))).2 = [] ∧
      (btnRun cfg s (List.replicate g (!debouncedLevel s.phase))).1.phase =
        s.phase) ∧
    (∀ a g b : Nat, g < cfg.debounceTicks →
      (btnRun cfg btnStart (List.replicate a false ++ List.replicate g true ++
        List.replicate b false)).2 = []) ∧
    (∀ p : Nat, cfg.debounceTicks ≤ p →
      (btnRun cfg btnStart (List.replicate p true)).2 =
        if cfg.longPressTicks ≤ p - cfg.debounceTicks
        then [BtnEvent.pressDown, BtnEvent.longPress]
        else [BtnEvent.pressDown]) := by
  refine ⟨?_, ?_, ?_⟩
  · intro s g h0 hg
    obtain ⟨ph, u, h⟩ := s
    dsimp only at h0
    subst h0
    cases ph
    · have hx := run_idle_true_short cfg g 0 h (by omega)
      simp [debouncedLevel, hx]
    · have hx := run_pressed_false_short cfg g 0 h (by omega)
      simp [debouncedLevel, hx]
    · have hx := run_lpf_false_short cfg g 0 h (by omega)
      simp [debouncedLevel, hx]
  · intro a g b hg
    have h0 := run_idle_false cfg a
    have h1 := run_idle_true_short cfg g 0 0 (by omega)
    simp only [Nat.zero_add] at h1
    have h2 := run_idle_false_events cfg b g 0
    simp [btnStart, btnRun_append, h0, h1, h2]
  · intro p hp
    have hsplit : List.replicate p true =
        List.replicate cfg.debounceTicks true ++
          List.replicate (p - cfg.debounceTicks) true := by
      rw [← List.replicate_add]
      congr 1
      omega
    have h1 := run_idle_true_accept cfg hd
    rw [hsplit]
    by_cases hcase : cfg.longPressTicks ≤ p - cfg.debounceTicks
    · have h2 := run_pressed_fire cfg (p - cfg.debounceTicks) 0
        (by omega) (by omega)
      rw [if_pos hcase]
      simp [btnStart, btnRun_append, h1, h2, -List.append_replicate_replicate]
    · have h2 := run_pressed_true_short cfg (p - cfg.debounceTicks) 0
        (by omega)
      rw [if_neg hcase]
      simp [btnStart, btnRun_append, h1, h2, -List.append_replicate_replicate]

/-- C8 witness: a 1-tick glitch under a 2-tick window yields no events; a
7-tick press under threshold 3 fires LongPress. -/
theorem debounce_zero_events_witness :
    (btnRun ⟨2, 3⟩ btnStart (List.replicate 3 false ++ List.replicate 1 true ++
      List.replicate 3 false)).2 = [] ∧
    (btnRun ⟨2, 3⟩ btnStart (List.replicate 7 true)).2 =
      [BtnEvent.pressDown, BtnEvent.longPress] := by
  have h := debounce_zero_events ⟨2, 3⟩ (by decide) (by decide)
  refine ⟨h.2.1 3 1 3 (by decide), ?_⟩
  rw [h.2.2 7 (by decide)]
  decide

set_option synthInstance.maxSize 1000 in
/-- C10: after the constructor completes, `GetDisplay` never returns null:
on the panel-init failure path `display_` is a `NoDisplay`, on the success
path an `OledDisplay`, so every completed run carries a non-null display. -/
theorem display_nonnull_after_constructor (env : HwEnv) :
    displaySetIfCompleted (constructorRun env) = true ∧
    (env.newMasterBus = true → env.newPanelIoI2c = true →
      env.newPanelSsd1306 = true → env.panelReset = true →
      env.panelInit = false →
      completedBoard (constructorRun env) =
        some ⟨some DisplayObj.noDisplay⟩) ∧
    (env.newMasterBus = true → env.newPanelIoI2c = true →
      env.newPanelSsd1306 = true → env.panelReset = true →
      env.panelInit = true → env.dispOnOff = true →
      completedBoard (constructorRun env) =
        some ⟨some DisplayObj.oledDisplay⟩) := by
  revert env
  decide

/-- C10 witness: the fully successful run carries the `OledDisplay`. -/
theorem display_nonnull_after_constructor_witness :
    displaySetIfCompleted
      (constructorRun ⟨true, true, true, true, true, true⟩) = true ∧
    completedBoard (constructorRun ⟨true, true, true, true, true, true⟩) =
      some ⟨some DisplayObj.oledDisplay⟩ :=
  ⟨(display_nonnull_after_constructor ⟨true, true, true, true, true, true⟩).1,
   (display_nonnull_after_constructor ⟨true, true, true, true, true, true⟩).2.2
     rfl rfl rfl rfl rfl rfl⟩

end CompactMl307
